import Mathlib

/-!
Shallow embedding of `mill/__init__.py` (class `Mill`), the Mill heating
cloud client.  Times are modelled as whole seconds (`Int`); Python
`datetime` subtraction followed by the `.seconds` attribute of the
resulting `timedelta` is modelled by `tdSeconds`.  Network interaction is
modelled by passing the outcome of each HTTP post in explicitly; the
functions return `Except PyErr _` where `.error` models a raised Python
exception and `.ok` an ordinary return value.  `self.rooms` / `self.heaters`
are modelled as functions from the (optional) id key to the stored record.
-/

set_option linter.unusedVariables false

namespace Mill

/-- Python exceptions the modelled code can raise:
`Exception('Not connected')` (token, line 165), `TypeError` (subtracting a
datetime from `None`), `KeyError` (a `body['k']` lookup on a missing key),
`AttributeError` (`.get` called on `None`), and `NameError` (evaluating an
undefined name, as in the `request` except-handler, line 236). -/
inductive PyErr
  | notConnected
  | typeError
  | keyError
  | attributeError
  | nameError
deriving DecidableEq

/-- The three Python values `True`, `False`, `None` that the
`retrieve_*` coroutines return. -/
inductive Py3
  | ptrue
  | pfalse
  | pnone
deriving DecidableEq

/-- Outcome of one HTTP post: `fail` models a raised
`asyncio.TimeoutError` / `aiohttp.ClientError`; `ok` carries the HTTP
status code and the parsed JSON body. -/
inductive Transport (β : Type)
  | fail
  | ok (status : Int) (body : β)

/-- API endpoints contacted by the credential code; used to trace which
network calls an invocation issues. -/
inductive Call
  | applyAuthCode
  | applyAccessToken
  | refreshtoken
deriving DecidableEq

/-- The credential fields of the `Mill` instance
(`_access_token`, `_token_expiry`, `_refresh_token`, `_refresh_expiry`,
`_authorization_code`); all start as `None` in `__init__`.  Expiries are
absolute times in whole seconds. -/
structure Creds where
  access_token : Option String
  token_expiry : Option Int
  refresh_token : Option String
  refresh_expiry : Option Int
  authorization_code : Option String
deriving DecidableEq

/-- Python truthiness test `not self._access_token`: true for `None` and
for the empty string. -/
def strFalsy : Option String → Bool
  | none => true
  | some s => decide (s = "")

/-- The `.seconds` attribute of a Python `timedelta` of `t` whole
seconds.  Python normalises a timedelta to `(days, seconds, microseconds)`
with `0 ≤ seconds < 86400` (days may be negative), so `.seconds` is the
floor-mod `t % 86400` — never negative. -/
def tdSeconds (t : Int) : Int := t % 86400

/-- The `data` sub-object of a token-issuing response
(lines 128-140 / 204-216); each key may be absent. `expireTime` and
`refresh_expireTime` are millisecond epoch values. -/
structure TokenData where
  access_token : Option String
  refresh_token : Option String
  expireTime : Option Int
  refresh_expireTime : Option Int
deriving DecidableEq

/-- Body of an access-token / refresh-token response:
optional `errorCode`, optional `success` flag (a `body['success']` lookup
raises `KeyError` when absent), optional `data` sub-object (a
`body['data']` lookup raises `KeyError` when absent). -/
structure TokenBody where
  errorCode : Option Nat
  success? : Option Bool
  data? : Option TokenData

/-- Body of the `applyAuthCode` response (only `errorCode` and `success`
are read from it; the authorization code travels in a response header). -/
structure AuthBody where
  errorCode : Option Nat
  success? : Option Bool

/-- Full `applyAuthCode` response: transport outcome plus the optional
`authorization_code` response header (line 84). -/
structure AuthResp where
  transport : Transport AuthBody
  header_auth_code : Option String

/-- The network environment seen by the credential code: the responses the
server gives to the three credential endpoints. -/
structure TokenEnv where
  authResp : AuthResp
  accessResp : Transport TokenBody
  refreshResp : Transport TokenBody

/-- The conditional field-population block shared verbatim by
`retrieve_access_token` (lines 129-140) and the refresh path of `token`
(lines 205-216): each credential field is overwritten only when the
corresponding key is present in `data`; `fromtimestamp(float(ms)/1000)`
is modelled at whole-second granularity as `ms / 1000`. -/
def applyTokenData (st : Creds) (d : TokenData) : Creds :=
  let st1 := match d.access_token with
    | some t => { st with access_token := some t }
    | none => st
  let st2 := match d.refresh_token with
    | some t => { st1 with refresh_token := some t }
    | none => st1
  let st3 := match d.expireTime with
    | some ms => { st2 with token_expiry := some (ms / 1000) }
    | none => st2
  match d.refresh_expireTime with
  | some ms => { st3 with refresh_expiry := some (ms / 1000) }
  | none => st3

/-- `Mill.retrieve_authorization_code` (lines 56-87).  Transport failure
returns `False`; error codes 101/102 return `None`, 201 returns `False`,
any other code falls through; on HTTP 200 with `body['success'] == True`
the `authorization_code` response header (if present) is stored and
`True` returned; otherwise `False`. -/
def retrieve_authorization_code (r : AuthResp) (st : Creds) :
    Except PyErr (Py3 × Creds) :=
  match r.transport with
  | .fail => .ok (.pfalse, st)
  | .ok status body =>
    if body.errorCode = some 101 then .ok (.pnone, st)
    else if body.errorCode = some 102 then .ok (.pnone, st)
    else if body.errorCode = some 201 then .ok (.pfalse, st)
    else if status = 200 then
      match body.success? with
      | none => .error .keyError
      | some s =>
        if s then
          match r.header_auth_code with
          | some code => .ok (.ptrue, { st with authorization_code := some code })
          | none => .ok (.pfalse, st)
        else .ok (.pfalse, st)
    else .ok (.pfalse, st)

/-- `Mill.retrieve_access_token` (lines 90-142).  Transport failure
returns `False`; error codes 101/102 return `None`, 221/222/223 return
`False`, any other code falls through; on HTTP 200 with `body['success']`
truthy the fields present in `body['data']` are stored and `True`
returned; otherwise `False`. -/
def retrieve_access_token (r : Transport TokenBody) (st : Creds) :
    Except PyErr (Py3 × Creds) :=
  match r with
  | .fail => .ok (.pfalse, st)
  | .ok status body =>
    if body.errorCode = some 101 then .ok (.pnone, st)
    else if body.errorCode = some 102 then .ok (.pnone, st)
    else if body.errorCode = some 221 then .ok (.pfalse, st)
    else if body.errorCode = some 222 then .ok (.pfalse, st)
    else if body.errorCode = some 223 then .ok (.pfalse, st)
    else if status = 200 then
      match body.success? with
      | none => .error .keyError
      | some s =>
        if s then
          match body.data? with
          | none => .error .keyError
          | some d => .ok (.ptrue, applyTokenData st d)
        else .ok (.pfalse, st)
    else .ok (.pfalse, st)

/-- `Mill.sync_connect` (lines 144-151): runs
`retrieve_authorization_code`, then `retrieve_access_token`, ignoring
their `True`/`False`/`None` results (a raised exception propagates out of
`run_until_complete` and aborts the second step).  The trace records the
endpoints whose HTTP post was attempted. -/
def sync_connect (env : TokenEnv) (st : Creds) :
    Except PyErr Creds × List Call :=
  match retrieve_authorization_code env.authResp st with
  | .error e => (.error e, [.applyAuthCode])
  | .ok (_, st1) =>
    match retrieve_access_token env.accessResp st1 with
    | .error e => (.error e, [.applyAuthCode, .applyAccessToken])
    | .ok (_, st2) => (.ok st2, [.applyAuthCode, .applyAccessToken])

/-- The refresh-endpoint leg of `Mill.token` (lines 175-218).  Transport
failure returns `None`; error codes 101/102/241/242/243 return `None`,
any other code falls through; on HTTP 200 with `body['success']` truthy
the fields present in `body['data']` overwrite the credentials and the
(possibly unchanged) `self._access_token` is returned; otherwise `None`. -/
def tokenRefreshPath (tr : Transport TokenBody) (st : Creds) :
    Except PyErr (Option String × Creds) :=
  match tr with
  | .fail => .ok (none, st)
  | .ok status body =>
    if body.errorCode = some 101 then .ok (none, st)
    else if body.errorCode = some 102 then .ok (none, st)
    else if body.errorCode = some 241 then .ok (none, st)
    else if body.errorCode = some 242 then .ok (none, st)
    else if body.errorCode = some 243 then .ok (none, st)
    else if status = 200 then
      match body.success? with
      | none => .error .keyError
      | some s =>
        if s then
          match body.data? with
          | none => .error .keyError
          | some d =>
            let st2 := applyTokenData st d
            .ok (st2.access_token, st2)
        else .ok (none, st)
    else .ok (none, st)

/-- `Mill.token` (lines 163-218).  Falsy `_access_token` raises
`Exception('Not connected')`; an unset expiry reached by a
`expiry - now` subtraction raises `TypeError`; the guard
`(token_expiry - now).seconds > 7200` takes the cheap path; the guard
`(refresh_expiry - now).seconds < 0` runs `sync_connect` and returns the
then-current `_access_token`; otherwise the refresh endpoint is
contacted.  The second component lists the endpoints contacted. -/
def token (now : Int) (env : TokenEnv) (st : Creds) :
    Except PyErr (Option String × Creds) × List Call :=
  if strFalsy st.access_token then (.error .notConnected, [])
  else
    match st.token_expiry with
    | none => (.error .typeError, [])
    | some te =>
      if tdSeconds (te - now) > 7200 then (.ok (st.access_token, st), [])
      else
        match st.refresh_expiry with
        | none => (.error .typeError, [])
        | some re =>
          if tdSeconds (re - now) < 0 then
            match sync_connect env st with
            | (.error e, calls) => (.error e, calls)
            | (.ok st2, calls) => (.ok (st2.access_token, st2), calls)
          else
            (tokenRefreshPath env.refreshResp st, [.refreshtoken])

/-- Body of a data-endpoint response as read by `Mill.request`
(lines 240-254): optional `errorCode`, the (never consulted) `success`
flag, and the optional `data` payload of endpoint-specific type `α`
(a `body['data']` lookup raises `KeyError` when absent). -/
structure ReqBody (α : Type) where
  errorCode : Option Nat
  success? : Option Bool
  data? : Option α

/-- The errorCode values that `Mill.request` maps to a `None` return
(lines 241-253: 101, 102, 303, 304 — each branch logs and returns
`None`). -/
def classifiedCode (ec : Option Nat) : Bool :=
  decide (ec = some 101) || decide (ec = some 102) ||
    decide (ec = some 303) || decide (ec = some 304)

/-- `Mill.request` (lines 220-254).  First `await self.token()` (a raised
exception propagates; its returned value, even `None`, is attached as a
header without inspection).  A transport failure enters the except
handler, whose logging call evaluates the undefined name `command`
(line 236) and therefore raises `NameError`.  Otherwise: a classified
`errorCode` returns `None`; any other body yields `body['data']`
unconditionally — neither `resp.status` nor `body['success']` is
consulted.  A missing `data` key raises `KeyError`. -/
def request {α : Type} (now : Int) (env : TokenEnv) (st : Creds)
    (resp : Transport (ReqBody α)) : Except PyErr (Option α × Creds) :=
  match token now env st with
  | (.error e, _) => .error e
  | (.ok (_tok, st1), _) =>
    match resp with
    | .fail => .error .nameError
    | .ok _status body =>
      if classifiedCode body.errorCode then .ok (none, st1)
      else
        match body.data? with
        | some d => .ok (some d, st1)
        | none => .error .keyError

/-- One element of a `homeList`: only its `homeId` key is read
(line 270); `.get` yields `None` when the key is absent. -/
structure Home where
  homeId : Option Nat
deriving DecidableEq

/-- The `data` payload of the `selectHomeList` endpoint: optional
`homeList` key (read with `.get`, line 261). -/
structure HomesBody where
  homeList : Option (List Home)

/-- One element of a `roomList` as read by `update_rooms`
(lines 276-283); every key is read with `.get`, yielding `None` when
absent. -/
structure RoomPayload where
  roomId : Option Nat
  comfortTemp : Option Int
  awayTemp : Option Int
  sleepTemp : Option Int
  roomName : Option String
  currentMode : Option Int
  heatStatus : Option Int
deriving DecidableEq

/-- The `data` payload of the `selectRoombyHome` endpoint: optional
`roomList` key (read with `.get('roomList', [])`, line 272). -/
structure RoomListBody where
  roomList : Option (List RoomPayload)

/-- The class `Room` (lines 422-432): all attributes default to `None`;
`is_offline` is declared on the class but never assigned by
`update_rooms`, so it survives upserts. -/
structure Room where
  room_id : Option Nat
  comfort_temp : Option Int
  away_temp : Option Int
  sleep_temp : Option Int
  name : Option String
  current_mode : Option Int
  heat_status : Option Int
  is_offline : Option Bool
deriving DecidableEq

/-- A freshly constructed `Room()`: every attribute `None`. -/
def Room.new : Room := ⟨none, none, none, none, none, none, none, none⟩

/-- `self.rooms`, keyed by the (optional) `roomId`. -/
def RoomStore : Type := Option Nat → Option Room

/-- The body of the upsert loop of `update_rooms` (lines 275-286):
fetch the existing record (`self.rooms.get(_id, Room())`), overwrite
every field read from the payload (absent keys become `None`), and store
the record back under `_id`. -/
def upsertRoom (st : RoomStore) (p : RoomPayload) : RoomStore :=
  let _id := p.roomId
  let room := (st _id).getD Room.new
  let room :=
    { room with
      room_id := _id
      comfort_temp := p.comfortTemp
      away_temp := p.awayTemp
      sleep_temp := p.sleepTemp
      name := p.roomName
      current_mode := p.currentMode
      heat_status := p.heatStatus }
  fun k => if k = _id then some room else st k

/-- The outcomes of the `request` calls that one `update_rooms` run
issues: the `selectHomeList` result, and the result of the k-th
`selectRoombyHome` request (so a fixed sequence of server responses is
replayed identically on every run).  `.error e` models a raised
exception, `.ok none` a `None` return from `request`. -/
structure RoomsEnv where
  homes : Except PyErr (Option HomesBody)
  roomResps : Nat → Except PyErr (Option RoomListBody)

/-- The per-home loop of `update_rooms` (lines 269-286), with `k` the
index of the next `selectRoombyHome` request.  `data.get('roomList', [])`
on a `None` result raises `AttributeError` (line 272); an empty room list
is skipped by `continue`, which coincides with folding over `[]`.  On a
raised exception the error carries `self.rooms` as mutated so far. -/
def roomsLoop : List Home → Nat → (Nat → Except PyErr (Option RoomListBody)) →
    RoomStore → Except (PyErr × RoomStore) RoomStore
  | [], _, _, st => .ok st
  | _ :: rest, k, o, st =>
    match o k with
    | .error e => .error (e, st)
    | .ok none => .error (.attributeError, st)
    | .ok (some b) => roomsLoop rest (k + 1) o ((b.roomList.getD []).foldl upsertRoom st)

/-- `Mill.update_rooms` (lines 264-286) together with the inlined
`get_home_list` (lines 256-262): a `None` request result or a missing
`homeList` key returns `None` with the store untouched; otherwise the
per-home loop runs.  The Python return value is always `None`; the model
returns the resulting `self.rooms` (carried on the error as well). -/
def update_rooms (env : RoomsEnv) (st : RoomStore) :
    Except (PyErr × RoomStore) RoomStore :=
  match env.homes with
  | .error e => .error (e, st)
  | .ok none => .ok st
  | .ok (some hb) =>
    match hb.homeList with
    | none => .ok st
    | some homes => roomsLoop homes 0 env.roomResps st

/-- The room store carried by an `update_rooms` result, whether the run
returned normally or raised. -/
def resultStore : Except (PyErr × RoomStore) RoomStore → RoomStore
  | .ok s => s
  | .error (_, s) => s

/-- The contents of `self.rooms` after one `update_rooms` run, whether it
returned normally or raised. -/
def storeAfter (env : RoomsEnv) (st : RoomStore) : RoomStore :=
  resultStore (update_rooms env st)

/-- One element of a device list as read by `update_heaters`
(lines 342-350); every key is read with `.get`. -/
structure DevicePayload where
  deviceId : Option Nat
  currentTemp : Option Int
  deviceStatus : Option Int
  deviceName : Option String
  heaterFlag : Option Int
  controlType : Option Int
  canChangeTemp : Option Int
deriving DecidableEq

/-- The class `Heater` (lines 435-444) plus the attributes that
`update_heaters` assigns dynamically; all default to `None`.  `set_temp`,
`fan_status` and `power_status` are never assigned by `update_heaters`,
so they survive upserts. -/
structure Heater where
  device_id : Option Nat
  current_temp : Option Int
  device_status : Option Int
  name : Option String
  flag : Option Int
  control_type : Option Int
  can_change_temp : Option Int
  set_temp : Option Int
  fan_status : Option Int
  power_status : Option Int
deriving DecidableEq

/-- A freshly constructed `Heater()`: every attribute `None`. -/
def Heater.new : Heater :=
  ⟨none, none, none, none, none, none, none, none, none, none⟩

/-- `self.heaters`, keyed by the (optional) `deviceId`. -/
def HeaterStore : Type := Option Nat → Option Heater

/-- The body of the upsert loop of `update_heaters` (lines 342-355). -/
def upsertHeater (st : HeaterStore) (p : DevicePayload) : HeaterStore :=
  let _id := p.deviceId
  let heater := (st _id).getD Heater.new
  let heater :=
    { heater with
      device_id := _id
      current_temp := p.currentTemp
      device_status := p.deviceStatus
      name := p.deviceName
      flag := p.heaterFlag
      control_type := p.controlType
      can_change_temp := p.canChangeTemp }
  fun k => if k = _id then some heater else st k

/-- A falsy list entry (`if not _heater: continue`, line 340) is modelled
as `none` and skipped; a non-empty dict entry is upserted. -/
def upsertHeater? (st : HeaterStore) (p : Option DevicePayload) : HeaterStore :=
  match p with
  | none => st
  | some q => upsertHeater st q

/-- The `data` payload of `getIndependentDevices`: optional
`deviceInfoList` key (line 333). -/
structure IndepBody where
  deviceInfoList : Option (List (Option DevicePayload))

/-- The `data` payload of `selectDevicebyRoom`: optional `deviceList`
key (line 337). -/
structure RoomDevBody where
  deviceList : Option (List (Option DevicePayload))

/-- The outcomes of the `request` calls one `update_heaters` run issues:
the `selectHomeList` result, the k-th `getIndependentDevices` result and
the k-th `selectDevicebyRoom` result. -/
structure HeatersEnv where
  homes : Except PyErr (Option HomesBody)
  indepResps : Nat → Except PyErr (Option IndepBody)
  roomDevResps : Nat → Except PyErr (Option RoomDevBody)

/-- The per-home gathering loop of `update_heaters` (lines 330-333):
`heaters.extend(data.get('deviceInfoList', []))`, where `.get` on a
`None` request result raises `AttributeError`. -/
def gatherIndep : List Home → Nat → (Nat → Except PyErr (Option IndepBody)) →
    Except PyErr (List (Option DevicePayload))
  | [], _, _ => .ok []
  | _ :: rest, k, o =>
    match o k with
    | .error e => .error e
    | .ok none => .error .attributeError
    | .ok (some b) =>
      match gatherIndep rest (k + 1) o with
      | .error e => .error e
      | .ok tail => .ok (b.deviceInfoList.getD [] ++ tail)

/-- The per-room gathering loop of `update_heaters` (lines 334-337) over
the keys of `self.rooms` (supplied as a list in dict iteration order):
`heaters.extend(data.get('deviceList', []))`, with the same
`AttributeError` hazard. -/
def gatherRoomDevs : List (Option Nat) → Nat →
    (Nat → Except PyErr (Option RoomDevBody)) →
    Except PyErr (List (Option DevicePayload))
  | [], _, _ => .ok []
  | _ :: rest, k, o =>
    match o k with
    | .error e => .error e
    | .ok none => .error .attributeError
    | .ok (some b) =>
      match gatherRoomDevs rest (k + 1) o with
      | .error e => .error e
      | .ok tail => .ok (b.deviceList.getD [] ++ tail)

/-- `Mill.update_heaters` (lines 324-355): gather the device payloads
from the per-home and per-room queries (all upserts happen only after
gathering), then upsert each gathered entry; `if heaters:` on an empty
list coincides with folding over `[]`.  A raised exception carries the
(untouched) `self.heaters`. -/
def update_heaters (env : HeatersEnv) (roomKeys : List (Option Nat))
    (st : HeaterStore) : Except (PyErr × HeaterStore) HeaterStore :=
  match env.homes with
  | .error e => .error (e, st)
  | .ok none => .ok st
  | .ok (some hb) =>
    match hb.homeList with
    | none => .ok st
    | some homes =>
      match gatherIndep homes 0 env.indepResps with
      | .error e => .error (e, st)
      | .ok hs1 =>
        match gatherRoomDevs roomKeys 0 env.roomDevResps with
        | .error e => .error (e, st)
        | .ok hs2 => .ok ((hs1 ++ hs2).foldl upsertHeater? st)

/-- Result of one `throttle_update_heaters` call: whether the underlying
`update_heaters` fetch was invoked, the `_throttle_time` marker
afterwards, and the fetch outcome. -/
structure ThrottleOut where
  fetched : Bool
  marker : Option Int
  run : Except (PyErr × HeaterStore) HeaterStore

/-- `Mill.throttle_update_heaters` (lines 363-369): a no-op when
`_throttle_time` is set and `now - _throttle_time` is under
`MIN_TIME_BETWEEN_UPDATES` (10 seconds); otherwise `_throttle_time` is
set to `now` first and `update_heaters` is awaited afterwards, so the
marker advances even when the fetch fails. -/
def throttle_update_heaters (now : Int) (env : HeatersEnv)
    (roomKeys : List (Option Nat)) (m : Option Int) (hst : HeaterStore) :
    ThrottleOut :=
  match m with
  | some t =>
    if now - t < 10 then ⟨false, m, .ok hst⟩
    else ⟨true, some now, update_heaters env roomKeys hst⟩
  | none => ⟨true, some now, update_heaters env roomKeys hst⟩

/-- The heater store after one `throttle_update_heaters` call, whether
the fetch returned normally or raised. -/
def hstoreOf (r : ThrottleOut) : HeaterStore :=
  match r.run with
  | .ok s => s
  | .error (_, s) => s

/-! Analysis helpers for the room-store reconciliation.  These are not
translations of source lines; they give a closed form for the effect of
`update_rooms` on `self.rooms`, proved equal to the translation below. -/

/-- The record produced by an upsert: every tracked field from the
payload, `is_offline` from the previous record (or `Room.new`). -/
def mkRoom (off : Option Bool) (p : RoomPayload) : Room :=
  ⟨p.roomId, p.comfortTemp, p.awayTemp, p.sleepTemp, p.roomName,
    p.currentMode, p.heatStatus, off⟩

/-- The `is_offline` value an upsert at key `k` would inherit from
store `st`. -/
def ioff (st : RoomStore) (k : Option Nat) : Option Bool :=
  ((st k).getD Room.new).is_offline

/-- Folding the upsert over a list of room payloads. -/
def applyAll (st : RoomStore) (ps : List RoomPayload) : RoomStore :=
  ps.foldl upsertRoom st

/-- The last payload of `ps` whose `roomId` equals `k`, if any. -/
def lastPay : List RoomPayload → Option Nat → Option RoomPayload
  | [], _ => none
  | p :: ps, k =>
    match lastPay ps k with
    | some q => some q
    | none => if p.roomId = k then some p else none

/-- The room payloads a run of `roomsLoop` actually upserts, in order,
stopping where the run raises; this depends only on the responses, never
on the store. -/
def processedFrom : List Home → Nat →
    (Nat → Except PyErr (Option RoomListBody)) → List RoomPayload
  | [], _, _ => []
  | _ :: rest, k, o =>
    match o k with
    | .error _ => []
    | .ok none => []
    | .ok (some b) => b.roomList.getD [] ++ processedFrom rest (k + 1) o

/-- The room payloads one `update_rooms` run upserts, in order. -/
def processed (env : RoomsEnv) : List RoomPayload :=
  match env.homes with
  | .error _ => []
  | .ok none => []
  | .ok (some hb) =>
    match hb.homeList with
    | none => []
    | some homes => processedFrom homes 0 env.roomResps

/-! Concrete inputs used by the witnesses and counterexamples below. -/

/-- A network environment in which every transport attempt fails. -/
def envFail : TokenEnv := ⟨⟨.fail, none⟩, .fail, .fail⟩

/-- Credentials never populated: every field `None`, as after
`__init__`. -/
def credsEmpty : Creds := ⟨none, none, none, none, none⟩

/-- Credentials whose access token expires 10800 s (3 h) after time 0 and
whose refresh token expires 30 days after time 0. -/
def credsOK : Creds := ⟨some "T", some 10800, some "R", some 2592000, none⟩

/-- Credentials whose access token expires 25 h (90000 s) after time 0 and
whose refresh token expires 30 days after time 0: remaining access-token
time is far above 2 h. -/
def creds25 : Creds := ⟨some "T", some 90000, some "R", some 2592000, none⟩

/-- Credentials evaluated at `now = 1000000`: the access token expired
23 h ago (at 917200) and the refresh token expired 1 h ago (at 996400),
so the 2-hour guard does not apply and the refresh expiry lies strictly
in the past. -/
def credsC1 : Creds := ⟨some "T", some 917200, some "R", some 996400, none⟩

/-- A stored room with `sleep_temp = 15` and a set `is_offline`. -/
def roomBefore : Room :=
  ⟨some 1, some 20, some 17, some 15, some "Old", some 1, some 0, some true⟩

/-- A room store holding only `roomBefore` under id 1. -/
def st0R : RoomStore := fun k => if k = some 1 then some roomBefore else none

/-- A server room payload for id 1 that omits the `sleepTemp` key. -/
def payloadNoSleep : RoomPayload :=
  ⟨some 1, some 21, some 18, none, some "New", some 2, some 1⟩

/-- Rooms environment: one home (id 7) whose room list holds only
`payloadNoSleep`. -/
def env0R : RoomsEnv :=
  ⟨.ok (some ⟨some [⟨some 7⟩]⟩), fun _ => .ok (some ⟨some [payloadNoSleep]⟩)⟩

/-- Heaters environment: one home (id 7) whose device query comes back as
a `None` result from `request` (as a `{errorCode: 304}` body produces). -/
def envH : HeatersEnv :=
  ⟨.ok (some ⟨some [⟨some 7⟩]⟩), fun _ => .ok none, fun _ => .ok none⟩

/-- An empty heater store. -/
def hstEmpty : HeaterStore := fun _ => none

/-- A device-query response body `{errorCode: 304}` (no data key). -/
def body304 : ReqBody IndepBody := ⟨some 304, some true, none⟩

/-- A response with error code 201, `success` false and a present data
payload; paired with HTTP status 500 in the theorems below. -/
def body201 : ReqBody Nat := ⟨some 201, some false, some 42⟩

/-- A token-issuing `data` payload holding an access token but no
`expireTime` key. -/
def d10 : TokenData := ⟨some "T1", some "R1", none, some 999000⟩

/-! Helper lemmas about the room upsert. -/

/-- Pointwise description of one upsert: the touched key gets every field
from the payload plus the inherited `is_offline`; other keys are
untouched. -/
theorem upsertRoom_apply (st : RoomStore) (p : RoomPayload) (k : Option Nat) :
    upsertRoom st p k =
      if k = p.roomId then some (mkRoom (ioff st p.roomId) p) else st k := rfl

/-- An upsert never changes the `is_offline` value the next upsert at any
key would inherit. -/
theorem ioff_upsertRoom (st : RoomStore) (p : RoomPayload) (k : Option Nat) :
    ioff (upsertRoom st p) k = ioff st k := by
  unfold ioff
  rw [upsertRoom_apply]
  by_cases h : k = p.roomId
  · subst h
    simp [mkRoom, ioff]
  · simp [h]

/-- `applyAll` never changes the inheritable `is_offline` values. -/
theorem ioff_applyAll (ps : List RoomPayload) :
    ∀ (st : RoomStore) (k : Option Nat), ioff (applyAll st ps) k = ioff st k := by
  induction ps with
  | nil => intro st k; rfl
  | cons p ps ih =>
    intro st k
    show ioff (applyAll (upsertRoom st p) ps) k = ioff st k
    rw [ih, ioff_upsertRoom]

/-- Closed form of a fold of upserts: a key touched by some payload holds
the record built from the last such payload plus the originally
inheritable `is_offline`; untouched keys keep their original record. -/
theorem applyAll_apply (ps : List RoomPayload) :
    ∀ (st : RoomStore) (k : Option Nat),
      applyAll st ps k =
        match lastPay ps k with
        | some q => some (mkRoom (ioff st k) q)
        | none => st k := by
  induction ps with
  | nil => intro st k; rfl
  | cons p ps ih =>
    intro st k
    show applyAll (upsertRoom st p) ps k = _
    rw [ih]
    cases h : lastPay ps k with
    | some q =>
      simp only [lastPay, h]
      rw [ioff_upsertRoom]
    | none =>
      simp only [lastPay, h]
      rw [upsertRoom_apply]
      by_cases h2 : k = p.roomId
      · subst h2
        simp
      · have h3 : ¬ p.roomId = k := fun hx => h2 hx.symm
        simp [h2, h3]

/-- A fold of upserts is idempotent. -/
theorem applyAll_idem (st : RoomStore) (ps : List RoomPayload) :
    applyAll (applyAll st ps) ps = applyAll st ps := by
  funext k
  rw [applyAll_apply, applyAll_apply]
  cases h : lastPay ps k with
  | some q => simp only [ioff_applyAll]
  | none => rfl

/-- Appending payload lists composes the folds. -/
theorem applyAll_append (st : RoomStore) (xs ys : List RoomPayload) :
    applyAll st (xs ++ ys) = applyAll (applyAll st xs) ys :=
  List.foldl_append upsertRoom st xs ys

/-- The store `roomsLoop` leaves behind (normally or on a raise) is the
fold of the upserts of the payloads the responses make it process. -/
theorem roomsLoop_factor (homes : List Home) :
    ∀ (k : Nat) (o : Nat → Except PyErr (Option RoomListBody)) (st : RoomStore),
      resultStore (roomsLoop homes k o st) = applyAll st (processedFrom homes k o) := by
  induction homes with
  | nil => intro k o st; rfl
  | cons h rest ih =>
    intro k o st
    cases hr : o k with
    | error e => simp [roomsLoop, processedFrom, hr, resultStore, applyAll]
    | ok ob =>
      cases ob with
      | none => simp [roomsLoop, processedFrom, hr, resultStore, applyAll]
      | some b =>
        simp only [roomsLoop, processedFrom, hr]
        rw [ih, applyAll_append]
        rfl

/-- The store after one `update_rooms` run is the fold of the upserts of
the processed payloads. -/
theorem storeAfter_eq (env : RoomsEnv) (st : RoomStore) :
    storeAfter env st = applyAll st (processed env) := by
  unfold storeAfter update_rooms processed
  cases env.homes with
  | error e => rfl
  | ok oh =>
    cases oh with
    | none => rfl
    | some hb =>
      obtain ⟨hl⟩ := hb
      cases hl with
      | none => rfl
      | some homes => exact roomsLoop_factor homes 0 env.roomResps st

/-! Claim theorems. -/

/-- C1: the claim says that with the refresh-token expiry strictly in the
past (and the 2-hour guard inapplicable) `token` performs the full
authorization-code → access-token handshake.  In the code the guard
`(refresh_expiry - now).seconds < 0` compares the always-nonnegative
`.seconds` component of a `timedelta`, so it can never fire: at the
failing input (access token expired 23 h ago, refresh token expired 1 h
ago) `token` contacts the refresh endpoint — and, in general, no
invocation of `token` ever contacts the authorization-code endpoint. -/
theorem c1_reauth_branch_unreachable :
    (token 1000000 envFail credsC1).2 = [Call.refreshtoken] ∧
    ∀ (now : Int) (env : TokenEnv) (st : Creds),
      Call.applyAuthCode ∉ (token now env st).2 := by
  refine ⟨rfl, ?_⟩
  intro now env st
  by_cases h1 : strFalsy st.access_token = true
  · simp [token, h1]
  · cases hte : st.token_expiry with
    | none => simp [token, h1, hte]
    | some te =>
      by_cases h2 : tdSeconds (te - now) > 7200
      · simp [token, h1, hte, h2]
      · cases hre : st.refresh_expiry with
        | none => simp [token, h1, hte, h2, hre]
        | some re =>
          have h3 : ¬ tdSeconds (re - now) < 0 := by
            have := Int.emod_nonneg (re - now) (by norm_num : (86400 : Int) ≠ 0)
            unfold tdSeconds
            omega
          simp [token, h1, hte, h2, hre, h3]

/-- C2: the claim says any access-token expiry more than 2 hours away
takes the cheap path (cached token, zero network calls).  The code
compares `(token_expiry - now).seconds`, the mod-86400 component, so with
the expiry 25 h away it contacts the refresh endpoint and does not return
the cached token; with the expiry 3 h away (the claim's concrete
instance) the cheap path does hold: cached token, no calls, credentials
untouched. -/
theorem c2_two_hour_guard_bug :
    token 0 envFail creds25 = (.ok (none, creds25), [Call.refreshtoken]) ∧
    token 0 envFail credsOK = (.ok (some "T", credsOK), []) :=
  ⟨rfl, rfl⟩

/-- C3: with no access token ever obtained (a falsy `_access_token`),
`token` raises `Exception('Not connected')` — a hard fault, not a return
value — and its call trace is empty, so no network call was issued. -/
theorem c3_not_connected (now : Int) (env : TokenEnv) (st : Creds)
    (h : strFalsy st.access_token = true) :
    token now env st = (.error .notConnected, []) := by
  simp [token, h]

/-- Witness for C3 at the never-authenticated credentials. -/
theorem c3_not_connected_witness :
    token 5 envFail credsEmpty = (.error .notConnected, []) :=
  c3_not_connected 5 envFail credsEmpty rfl

/-- C4 counterexample: the claim says an upsert whose payload omits
`sleepTemp` preserves the previously recorded `sleep_temp`.  Running
`update_rooms` over one home whose payload for room 1 omits `sleepTemp`
turns the stored `sleep_temp` from `15` into `None`. -/
theorem c4_counterexample :
    (st0R (some 1)).map Room.sleep_temp = some (some 15) ∧
    (storeAfter env0R st0R (some 1)).map Room.sleep_temp = some none :=
  ⟨rfl, rfl⟩

/-- C4 amended: the upsert performed by `update_rooms` overwrites every
tracked field from the payload, so a payload that omits `sleepTemp` sets
the stored `sleep_temp` to `None` (the prior value is cleared, not
preserved), while the fields present in the payload are updated; only the
untracked `is_offline` survives from the previous record. -/
theorem c4_amended (st : RoomStore) (p : RoomPayload) (h : p.sleepTemp = none) :
    upsertRoom st p p.roomId =
      some { room_id := p.roomId, comfort_temp := p.comfortTemp,
             away_temp := p.awayTemp, sleep_temp := none,
             name := p.roomName, current_mode := p.currentMode,
             heat_status := p.heatStatus, is_offline := ioff st p.roomId } := by
  have e1 : upsertRoom st p p.roomId = some (mkRoom (ioff st p.roomId) p) := by
    rw [upsertRoom_apply]
    simp
  rw [e1]
  unfold mkRoom
  rw [h]

/-- Witness for C4's amended claim at the concrete store and payload of
the counterexample. -/
theorem c4_amended_witness :
    upsertRoom st0R payloadNoSleep (some 1) =
      some { room_id := some 1, comfort_temp := some 21,
             away_temp := some 18, sleep_temp := none,
             name := some "New", current_mode := some 2,
             heat_status := some 1, is_offline := some true } :=
  c4_amended st0R payloadNoSleep rfl

/-- C5: running `update_rooms` twice against the same fixed sequence of
server responses leaves `self.rooms` after the second run identical to
its contents after the first run. -/
theorem c5_update_rooms_idempotent (env : RoomsEnv) (st : RoomStore) :
    storeAfter env (storeAfter env st) = storeAfter env st := by
  rw [storeAfter_eq, storeAfter_eq, applyAll_idem]

/-- C6: of two `throttle_update_heaters` calls less than 10 s apart, at
most one invokes the underlying `update_heaters` fetch; and whenever the
first call does fetch, the throttle marker is already set to that call's
time — for every fetch outcome, so the marker advances even when the
fetch fails. -/
theorem c6_throttle (t1 t2 : Int) (m : Option Int) (env1 env2 : HeatersEnv)
    (rk1 rk2 : List (Option Nat)) (hst : HeaterStore) (h : t2 - t1 < 10) :
    Bool.toNat (throttle_update_heaters t1 env1 rk1 m hst).fetched +
      Bool.toNat (throttle_update_heaters t2 env2 rk2
        (throttle_update_heaters t1 env1 rk1 m hst).marker
        (hstoreOf (throttle_update_heaters t1 env1 rk1 m hst))).fetched ≤ 1 ∧
    ((throttle_update_heaters t1 env1 rk1 m hst).fetched = true →
      (throttle_update_heaters t1 env1 rk1 m hst).marker = some t1) := by
  cases m with
  | none => simp [throttle_update_heaters, h]
  | some t =>
    by_cases hb : t1 - t < 10
    · constructor
      · by_cases hc : t2 - t < 10 <;> simp [throttle_update_heaters, hb, hc]
      · simp [throttle_update_heaters, hb]
    · simp [throttle_update_heaters, hb, h]

/-- Witness for C6: calls at times 0 and 5 with no prior marker, the
first against an environment whose fetch raises `AttributeError`; the
first call fetches and advances the marker to 0, the second does not
fetch. -/
theorem c6_throttle_witness :
    Bool.toNat (throttle_update_heaters 0 envH [] none hstEmpty).fetched +
      Bool.toNat (throttle_update_heaters 5 envH []
        (throttle_update_heaters 0 envH [] none hstEmpty).marker
        (hstoreOf (throttle_update_heaters 0 envH [] none hstEmpty))).fetched ≤ 1 ∧
    ((throttle_update_heaters 0 envH [] none hstEmpty).fetched = true →
      (throttle_update_heaters 0 envH [] none hstEmpty).marker = some 0) :=
  c6_throttle 0 5 none envH envH [] [] hstEmpty (by norm_num)

/-- C7: the claim says a transport-level timeout or connection failure
makes `request` log and return `None` without raising.  The except
handler's logging call evaluates the undefined name `command`, so the
code instead raises `NameError`: here a `request` whose HTTP post fails
(with perfectly valid credentials) raises. -/
theorem c7_transport_failure_raises :
    request 0 envFail credsOK (Transport.fail : Transport (ReqBody Nat)) =
      .error .nameError := rfl

/-- C8: a device query answered with body `{errorCode: 304}` makes
`request` return `None` (first conjunct), but `update_heaters` then calls
`.get` on that `None` and raises `AttributeError` to the caller — the
claim's "no fault is thrown" fails, though indeed nothing is upserted
(the store carried by the raise is the untouched one). -/
theorem c8_error304 :
    request 0 envFail credsOK (Transport.ok 200 body304) = .ok (none, credsOK) ∧
    update_heaters envH [] hstEmpty = .error (.attributeError, hstEmpty) :=
  ⟨rfl, rfl⟩

/-- C9 counterexample: the claim says the data sub-object is returned
unwrapped only when the body has no `errorCode`, `success` is true and
the HTTP status is 200.  A response with `errorCode` 201, `success`
false and HTTP status 500 still gets its data returned unwrapped. -/
theorem c9_counterexample :
    request 0 envFail credsOK (Transport.ok 500 body201) =
      .ok (some 42, credsOK) := rfl

/-- C9 amended: once `token` has succeeded, `request` returns the data
sub-object unwrapped whenever the body's `errorCode` is absent or not one
of the classified codes 101/102/303/304, irrespective of the HTTP status
and of the `success` flag; a body with a classified code yields the
failure return `None`.  (A body lacking the `data` key instead raises
`KeyError`.) -/
theorem c9_amended {α : Type} (now : Int) (env : TokenEnv) (st st1 : Creds)
    (tok : Option String) (tr : List Call) (status : Int) (body : ReqBody α)
    (d : α) (htok : token now env st = (.ok (tok, st1), tr))
    (hd : body.data? = some d) :
    request now env st (.ok status body) =
      .ok (if classifiedCode body.errorCode then none else some d, st1) := by
  unfold request
  rw [htok]
  by_cases hc : classifiedCode body.errorCode = true
  · simp [hc]
  · simp [hc, hd]

/-- Witness for C9's amended claim: unclassified error code 201, status
500, `success` false — the data is returned unwrapped. -/
theorem c9_amended_witness :
    request 0 envFail credsOK (Transport.ok 500 body201) =
      .ok (if classifiedCode body201.errorCode then none else some 42, credsOK) :=
  c9_amended 0 envFail credsOK credsOK (some "T") [] 500 body201 42 rfl rfl

/-- C10: if `retrieve_access_token` succeeds on a response whose data
carries an access token but omits `expireTime` (population of each field
is conditional on key presence), the stored expiry stays unset; a later
`token` call then passes the not-connected check and raises `TypeError`
at the `token_expiry - now` subtraction instead of returning a failure
result. -/
theorem c10_missing_expiry (st : Creds) (d : TokenData) (t : String)
    (now : Int) (env : TokenEnv) (h1 : d.access_token = some t)
    (h2 : ¬ t = "") (h3 : d.expireTime = none) (h4 : st.token_expiry = none) :
    retrieve_access_token (.ok 200 ⟨none, some true, some d⟩) st =
        .ok (.ptrue, applyTokenData st d) ∧
    (applyTokenData st d).access_token = some t ∧
    (applyTokenData st d).token_expiry = none ∧
    token now env (applyTokenData st d) = (.error .typeError, []) := by
  have key : (applyTokenData st d).access_token = some t ∧
      (applyTokenData st d).token_expiry = none := by
    cases hrt : d.refresh_token <;> cases hre : d.refresh_expireTime <;>
      simp [applyTokenData, h1, h3, hrt, hre, h4]
  refine ⟨rfl, key.1, key.2, ?_⟩
  simp [token, strFalsy, key.1, key.2, h2]

/-- Witness for C10: fresh credentials, a success response whose data
holds token `T1` but no `expireTime`; the later `token` call raises
`TypeError`. -/
theorem c10_missing_expiry_witness :
    retrieve_access_token (.ok 200 ⟨none, some true, some d10⟩) credsEmpty =
        .ok (.ptrue, applyTokenData credsEmpty d10) ∧
    (applyTokenData credsEmpty d10).access_token = some "T1" ∧
    (applyTokenData credsEmpty d10).token_expiry = none ∧
    token 0 envFail (applyTokenData credsEmpty d10) = (.error .typeError, []) :=
  c10_missing_expiry credsEmpty d10 "T1" 0 envFail rfl (by decide) rfl rfl

end Mill
